import Mathlib

/-!
Verification of the external-store tearing study.

The repository under study wires a mutable external store (a mouse-x
coordinate mutated by a `mousemove` handler) to two React hooks: an
uncoordinated reader (`useMousePosition`) and a synchronized reader
(`useSyncMousePosition`, built on `useSyncExternalStore`).  This file
embeds the store and its operations from `src/src/main.tsx` as pure
Lean functions over an explicit store state, and the entry-point
container guard from the rendering root.  JavaScript function identity
(used by the `Set` of listeners) is modelled by a numeric listener id.
-/

/-- Identity of a listener callback (JS functions compared by reference). -/
abbrev Listener : Type := Nat

/-- State of the store built by `createExternalStore`:
`x` is the single field of the mutable `data` object, `listeners` is the
`Set<Listener>` (unique entries, insertion order), and `attached` records
whether the `mousemove` callback is currently registered on `window`
(`addEventListener` at creation, `removeEventListener` in `destroy`). -/
structure Store where
  x : Int
  listeners : List Listener
  attached : Bool
deriving DecidableEq, Repr

/-- JS `Set.prototype.add`: inserts the element unless an identical one is
already present. -/
def jsSetAdd (xs : List Listener) (l : Listener) : List Listener :=
  if l ∈ xs then xs else xs ++ [l]

/-- JS `Set.prototype.delete`: removes the element if present, no-op
otherwise (never throws). -/
def jsSetDelete (xs : List Listener) (l : Listener) : List Listener :=
  xs.filter (fun b => b ≠ l)

/-- The store as created by `createExternalStore()`: `data = { x: 0 }`, an
empty listener set, and the `mousemove` callback attached to `window`. -/
def createExternalStore : Store :=
  { x := 0, listeners := [], attached := true }

/-- The store's internal `mousemove` handler, `callback` in the source:
its whole body is `data.x = event.clientX;`.  It writes the new `x` and
performs no listener invocation.  The second component records the
listeners the handler invokes, in invocation order: the body contains no
call to any registered listener, so it is empty. -/
def callback (s : Store) (clientX : Int) : Store × List Listener :=
  ({ s with x := clientX }, [])

/-- Delivery of a `mousemove` event by `window`: the handler runs only
while it is attached (between `addEventListener` and
`removeEventListener`).  Returns the new store state and the list of
listeners invoked during the delivery. -/
def handleMousemove (s : Store) (clientX : Int) : Store × List Listener :=
  if s.attached then callback s clientX else (s, [])

/-- Delivery of a sequence of `mousemove` events, accumulating the
listeners invoked across all deliveries. -/
def applyEvents (s : Store) : List Int → Store × List Listener
  | [] => (s, [])
  | c :: cs =>
      let r := handleMousemove s c
      let r' := applyEvents r.1 cs
      (r'.1, r.2 ++ r'.2)

/-- The store's `get value()` accessor: returns the `data` object (here,
its single field `x`) and, being a plain property read, leaves the store
untouched; the first component is the (unchanged) store after the read. -/
def value (s : Store) : Store × Int := (s, s.x)

/-- The `getState` callback of `useSyncMousePosition`:
`() => ref.current.value.x`. -/
def getState (s : Store) : Int := s.x

/-- `subscribe(listener)`: adds the listener to the `Set` and returns the
unsubscribe handle, a closure identified by the listener it deletes. -/
def subscribe (s : Store) (l : Listener) : Store × Listener :=
  ({ s with listeners := jsSetAdd s.listeners l }, l)

/-- Invoking an unsubscribe handle returned by `subscribe`:
`() => listeners.delete(listener)`. -/
def unsubscribe (s : Store) (l : Listener) : Store :=
  { s with listeners := jsSetDelete s.listeners l }

/-- `destroy()`: `listeners.clear()` then
`window.removeEventListener("mousemove", callback)`. -/
def destroy (s : Store) : Store :=
  { s with listeners := [], attached := false }

/-- One render of `useMousePosition`: `return ref.current.value.x;` — a
direct property read, no comparison with any previous snapshot, no
subscription registered (`useRef` and `useDebugValue` have no effect on
the store).  Returns the (unchanged) store and the rendered value. -/
def useMousePosition (s : Store) : Store × Int := (s, s.x)

/-- A DOM element, identified by an opaque id. -/
abbrev Element : Type := Nat

/-- Outcome of a successful startup: the root that `createRoot` produced
and the fact that `root.render(<App/>)` ran. -/
structure StartupOutcome where
  root : Element
  renderedApp : Bool
deriving DecidableEq, Repr

/-- The rendering-root entry point of the repository:
`const container = document.getElementById("root"); if (!container) throw
new Error("Missing container"); const root = ReactDOM.createRoot(container);
root.render(...)`.  The argument is what `getElementById` returned; a
thrown error is an `Except.error` carrying the error message, raised
before any render happens. -/
def mainStartup (container : Option Element) : Except String StartupOutcome :=
  match container with
  | none => Except.error "Missing container"
  | some el => Except.ok { root := el, renderedApp := true }

/-- Modelled from the spec: the discard-and-retry commit protocol of the
synchronized accessor (`useSyncExternalStore` from
`use-sync-external-store/shim`, a dependency whose code is not in the
repository).  `valueAt init tr t` is `getCurrentValue()` at instant `t`
of a timeline on which the mutations `tr` are delivered one per instant
starting from value `init`: the value is the last mutation delivered
strictly before `t`, or `init` if none was. -/
def valueAt (init : Int) (tr : List Int) (t : Nat) : Int :=
  (tr.take t).getLastD init

/-- Modelled from the spec: one run of the synchronized accessor's
protocol.  An attempt that started at instant `start` rendered
`valueAt init tr start`; at each check instant (the list `ts`) the
accessor re-reads `getCurrentValue()` and compares it with the value the
attempt rendered: if equal, that attempt is committed at that instant;
if different, the attempt is discarded and a fresh attempt starts from
the check instant.  Returns the committed value and the commit instant,
or `none` if every scheduled check found a change. -/
def syncCommit (init : Int) (tr : List Int) (start : Nat) : List Nat → Option (Int × Nat)
  | [] => none
  | t :: ts =>
      if valueAt init tr t = valueAt init tr start then
        some (valueAt init tr start, t)
      else
        syncCommit init tr t ts

theorem handleMousemove_invokes_nothing (s : Store) (c : Int) :
    (handleMousemove s c).2 = [] := by
  unfold handleMousemove callback
  split <;> rfl

theorem handleMousemove_keeps_listeners (s : Store) (c : Int) :
    (handleMousemove s c).1.listeners = s.listeners := by
  unfold handleMousemove callback
  split <;> rfl

theorem handleMousemove_keeps_attached (s : Store) (c : Int) :
    (handleMousemove s c).1.attached = s.attached := by
  unfold handleMousemove callback
  split <;> rfl

theorem applyEvents_x (s : Store) (evs : List Int) (h : s.attached = true) :
    (applyEvents s evs).1.x = evs.getLastD s.x := by
  induction evs generalizing s with
  | nil => rfl
  | cons c cs ih =>
      have hx : handleMousemove s c = ({ s with x := c }, []) := by
        unfold handleMousemove callback
        rw [h]
        simp
      simp only [applyEvents, hx, List.getLastD_cons]
      exact ih { s with x := c } h

theorem applyEvents_detached (s : Store) (evs : List Int) (h : s.attached = false) :
    applyEvents s evs = (s, []) := by
  induction evs with
  | nil => rfl
  | cons c cs ih =>
      have hm : handleMousemove s c = (s, []) := by
        simp [handleMousemove, h]
      simp [applyEvents, hm, ih]

theorem unsubscribe_unsubscribe (s : Store) (l : Listener) :
    unsubscribe (unsubscribe s l) l = unsubscribe s l := by
  unfold unsubscribe jsSetDelete
  simp [List.filter_filter]

theorem mem_unsubscribe (s : Store) (l b : Listener) :
    b ∈ (unsubscribe s l).listeners ↔ (b ∈ s.listeners ∧ b ≠ l) := by
  unfold unsubscribe jsSetDelete
  simp [List.mem_filter]

/-- Claim C1, amended: for every mutation delivered by the external event
source while the handler is attached, the store's internal event handler
updates the stored value and invokes no listener at all — the registered
`onChange` callbacks are never invoked by the store. -/
theorem handleMousemove_invokes_no_registered_listener (s : Store) (c : Int)
    (h : s.attached = true) :
    (handleMousemove s c).1.x = c ∧
    (handleMousemove s c).1.listeners = s.listeners ∧
    (handleMousemove s c).2 = [] := by
  unfold handleMousemove callback
  rw [h]
  simp

theorem handleMousemove_invokes_no_registered_listener_witness :
    (handleMousemove (Store.mk 0 [4] true) 9).1.x = 9 ∧
    (handleMousemove (Store.mk 0 [4] true) 9).1.listeners = (Store.mk 0 [4] true).listeners ∧
    (handleMousemove (Store.mk 0 [4] true) 9).2 = [] :=
  handleMousemove_invokes_no_registered_listener (Store.mk 0 [4] true) 9 rfl

/-- Claim C1 as stated is false: with listener 7 registered, delivering a
mousemove mutation updates the stored value but does not invoke the
registered listener. -/
theorem handleMousemove_skips_registered_listener :
    7 ∈ (Store.mk 0 [7] true).listeners ∧
    (handleMousemove (Store.mk 0 [7] true) 3).1.x = 3 ∧
    7 ∉ (handleMousemove (Store.mk 0 [7] true) 3).2 := by decide

/-- Claim C2: under the discard-and-retry protocol, every committed value
equals `getCurrentValue()` at the commit instant, which is no earlier
than the start of the attempt that produced it (the accessor's most
recent read-or-reread point): no stale value reaches the committed
output. -/
theorem syncCommit_no_stale_commit (init : Int) (tr : List Int) (ts : List Nat)
    (start : Nat) (v : Int) (t : Nat)
    (hch : List.Chain (fun a b => a ≤ b) start ts)
    (h : syncCommit init tr start ts = some (v, t)) :
    v = valueAt init tr t ∧ start ≤ t := by
  induction ts generalizing start with
  | nil => simp [syncCommit] at h
  | cons t0 ts ih =>
      rw [List.chain_cons] at hch
      obtain ⟨h01, hch'⟩ := hch
      unfold syncCommit at h
      by_cases heq : valueAt init tr t0 = valueAt init tr start
      · rw [if_pos heq] at h
        simp only [Option.some.injEq, Prod.mk.injEq] at h
        obtain ⟨h1, h2⟩ := h
        subst h2
        subst h1
        exact ⟨heq.symm, h01⟩
      · rw [if_neg heq] at h
        obtain ⟨hv, hle⟩ := ih t0 hch' h
        exact ⟨hv, le_trans h01 hle⟩

theorem syncCommit_no_stale_commit_witness :
    (5 : Int) = valueAt 0 [5] 1 ∧ 0 ≤ 1 :=
  syncCommit_no_stale_commit 0 [5] [1, 1] 0 5 1
    (List.Chain.cons (by decide) (List.Chain.cons (by decide) List.Chain.nil)) (by decide)

/-- Claim C3: invoking an unsubscribe handle a second time changes
nothing further, unsubscription of one listener preserves the
registration of every other listener, and a mutation delivered after
unsubscription invokes no handler (the embedding is total, so no error
is raised anywhere). -/
theorem unsubscribe_idempotent_and_silent (s : Store) (l b : Listener) (c : Int) :
    unsubscribe (unsubscribe s l) l = unsubscribe s l ∧
    (b ∈ (unsubscribe s l).listeners ↔ (b ∈ s.listeners ∧ b ≠ l)) ∧
    (handleMousemove (unsubscribe s l) c).2 = [] :=
  ⟨unsubscribe_unsubscribe s l, mem_unsubscribe s l b,
    handleMousemove_invokes_nothing (unsubscribe s l) c⟩

/-- Claim C4: after any sequence of mutations applied by the internal
event handler, the `value` getter (and the `getState` read used by the
synchronized hook) returns the latest value the handler wrote, and the
read leaves the store — value and listener set — unchanged. -/
theorem value_returns_latest_write (s : Store) (evs : List Int) (h : s.attached = true) :
    value (applyEvents s evs).1 = ((applyEvents s evs).1, evs.getLastD s.x) ∧
    getState (applyEvents s evs).1 = evs.getLastD s.x := by
  have hx := applyEvents_x s evs h
  exact ⟨by unfold value; rw [hx], hx⟩

theorem value_returns_latest_write_witness :
    value (applyEvents createExternalStore [3, 8]).1
      = ((applyEvents createExternalStore [3, 8]).1,
          ([3, 8] : List Int).getLastD createExternalStore.x) ∧
    getState (applyEvents createExternalStore [3, 8]).1
      = ([3, 8] : List Int).getLastD createExternalStore.x :=
  value_returns_latest_write createExternalStore [3, 8] rfl

/-- Claim C5: no operation of the store other than the internal event
handler writes the stored value — reading, subscribing, unsubscribing
and destroying all leave `x` unchanged, and the handler is the one
writer. -/
theorem store_single_writer (s : Store) (l : Listener) (c : Int) :
    value s = (s, s.x) ∧
    ((subscribe s l).1).x = s.x ∧
    (unsubscribe s l).x = s.x ∧
    (destroy s).x = s.x ∧
    (handleMousemove s c).1.x = (if s.attached then c else s.x) := by
  refine ⟨rfl, rfl, rfl, rfl, ?_⟩
  unfold handleMousemove callback
  by_cases h : s.attached <;> simp [h]

/-- Claim C6: after `destroy()` the listener set is empty and the event
source is detached, and every subsequent mutation leaves the store inert
and reaches no listener. -/
theorem destroy_detaches_and_clears (s : Store) (evs : List Int) :
    (destroy s).listeners = [] ∧
    (destroy s).attached = false ∧
    applyEvents (destroy s) evs = (destroy s, []) :=
  ⟨rfl, rfl, applyEvents_detached (destroy s) evs rfl⟩

/-- Claim C7: on every render, `useMousePosition` returns exactly the
store's current value read directly, leaving the store (in particular
its listener set) untouched: no subscription is registered. -/
theorem useMousePosition_reads_directly (s : Store) :
    useMousePosition s = (s, (value s).2) ∧
    (useMousePosition s).1.listeners = s.listeners :=
  ⟨rfl, rfl⟩

/-- Claim C8: with the root container missing, startup throws
"Missing container" before rendering anything; with the container
present, no error is raised and the app is rendered. -/
theorem mainStartup_guards_missing_container :
    mainStartup none = Except.error "Missing container" ∧
    ∀ el : Element, mainStartup (some el) = Except.ok { root := el, renderedApp := true } :=
  ⟨rfl, fun _ => rfl⟩

/-- Claim C9: the store is created with `x = 0`, so before any mutation
the uncoordinated read, the synchronized read, and a synchronized commit
under an empty mutation trace all yield 0. -/
theorem initial_value_zero :
    createExternalStore.x = 0 ∧
    (useMousePosition createExternalStore).2 = 0 ∧
    getState createExternalStore = 0 ∧
    syncCommit 0 [] 0 [0] = some (0, 0) := by decide

/-- Claim C10: subscribing the identical listener twice yields a single
registration (the second `subscribe` is a no-op on the store), the
single entry is removed by invoking an unsubscribe handle once, and
invoking the other handle afterwards is a no-op. -/
theorem subscribe_same_listener_once (s : Store) (l : Listener) (h : l ∉ s.listeners) :
    (subscribe (subscribe s l).1 l).1 = (subscribe s l).1 ∧
    ((subscribe s l).1).listeners.count l = 1 ∧
    (unsubscribe (subscribe s l).1 l).listeners.count l = 0 ∧
    unsubscribe (unsubscribe (subscribe s l).1 l) l = unsubscribe (subscribe s l).1 l := by
  refine ⟨?_, ?_, ?_, unsubscribe_unsubscribe _ l⟩
  · unfold subscribe jsSetAdd
    simp [h]
  · unfold subscribe jsSetAdd
    simp [h, List.count_append, List.count_eq_zero.mpr h]
  · refine List.count_eq_zero.mpr ?_
    simp [unsubscribe, jsSetDelete, List.mem_filter]

theorem subscribe_same_listener_once_witness :
    (subscribe (subscribe (Store.mk 0 [] true) 3).1 3).1 = (subscribe (Store.mk 0 [] true) 3).1 ∧
    ((subscribe (Store.mk 0 [] true) 3).1).listeners.count 3 = 1 ∧
    (unsubscribe (subscribe (Store.mk 0 [] true) 3).1 3).listeners.count 3 = 0 ∧
    unsubscribe (unsubscribe (subscribe (Store.mk 0 [] true) 3).1 3) 3
      = unsubscribe (subscribe (Store.mk 0 [] true) 3).1 3 :=
  subscribe_same_listener_once (Store.mk 0 [] true) 3 (by decide)
